import Mathlib

/-!
Shallow embedding of `src/app.py` (ATS resume analyser backend).

The program is a Flask app with one analysis endpoint.  We embed:
  * JSON values (`Json`), since all payloads and replies are JSON;
  * Python-level operations the code performs on JSON values
    (`in` membership, `dict.get`, subscripting, `str()` formatting),
    including the exceptions they raise (`PyExc`);
  * `call_gemini_api_with_backoff` as a function of an environment
    oracle giving each attempt's outcome (the network is external;
    2xx bodies are modelled as already-parsed JSON, and `time.sleep`
    is modelled by recording the requested durations);
  * `file_to_base64_part` with a concrete base64 encoder;
  * the `/analyze` handler `analyze_resume`, with `json.loads`
    abstracted as a parameter `loads : String → Option Json`
    (the standard library parser is external to the repository;
    `none` models `json.JSONDecodeError`).
-/

/-- JSON/Python values as produced by `json.loads` / sent by the app.
`null` doubles as Python `None`. Numbers are modelled as integers; no
behaviour relevant to the program distinguishes numeric subtypes. -/
inductive Json where
  | null : Json
  | bool (b : Bool) : Json
  | num (n : Int) : Json
  | str (s : String) : Json
  | arr (xs : List Json) : Json
  | obj (fields : List (String × Json)) : Json

/-- Python exceptions that the embedded code can raise. -/
inductive PyExc where
  | keyError (key : String) : PyExc
  | indexError (msg : String) : PyExc
  | typeError (msg : String) : PyExc
  | attributeError (msg : String) : PyExc
  | jsonDecodeError : PyExc
  | genericError (msg : String) : PyExc

/-- First-match association lookup, as on a Python dict with string keys. -/
def jlookup : List (String × Json) → String → Option Json
  | [], _ => none
  | (k, v) :: rest, key => if k = key then some v else jlookup rest key

/-- Lookup of a key on an object value; `none` on non-objects or missing key. -/
def jget (v : Json) (key : String) : Option Json :=
  match v with
  | Json.obj fields => jlookup fields key
  | _ => none

/-- Whether an object's field list carries the given key (`key in dict`). -/
def hasKey (fields : List (String × Json)) (key : String) : Bool :=
  fields.any (fun p => p.1 == key)

/-- Python type name of a value, as it appears in exception messages. -/
def pyTypeName : Json → String
  | Json.null => "NoneType"
  | Json.bool _ => "bool"
  | Json.num _ => "int"
  | Json.str _ => "str"
  | Json.arr _ => "list"
  | Json.obj _ => "dict"

/-- Python `repr` of a value (string escaping inside quotes elided). -/
def pyRepr : Json → String
  | Json.null => "None"
  | Json.bool true => "True"
  | Json.bool false => "False"
  | Json.num n => toString n
  | Json.str s => "\x27" ++ s ++ "\x27"
  | Json.arr xs =>
      "[" ++ String.intercalate ", " (xs.attach.map (fun x => pyRepr x.1)) ++ "]"
  | Json.obj fs =>
      "\x7b" ++
      String.intercalate ", "
        (fs.attach.map (fun p => "\x27" ++ p.1.1 ++ "\x27: " ++ pyRepr p.1.2)) ++
      "\x7d"
termination_by v => sizeOf v
decreasing_by
  · have h := List.sizeOf_lt_of_mem x.2
    simp only [Json.arr.sizeOf_spec]
    omega
  · have h := List.sizeOf_lt_of_mem p.2
    obtain ⟨⟨a, b⟩, hp⟩ := p
    simp only [Prod.mk.sizeOf_spec] at h
    simp only [Json.obj.sizeOf_spec]
    omega

/-- Python `str()` of a value, as used by f-string interpolation. -/
def pyStr : Json → String
  | Json.str s => s
  | v => pyRepr v

/-- Python `str(e)` of an exception, as used by the blanket handler.
For `KeyError` it is the `repr` of the key. -/
def pyExcStr : PyExc → String
  | PyExc.keyError k => "\x27" ++ k ++ "\x27"
  | PyExc.indexError m => m
  | PyExc.typeError m => m
  | PyExc.attributeError m => m
  | PyExc.jsonDecodeError => "Expecting value"
  | PyExc.genericError m => m

/-- Contiguous-sublist (substring) test on characters, for Python
`needle in haystack` on strings. -/
def listSub (needle : List Char) : List Char → Bool
  | [] => needle.isEmpty
  | c :: rest => needle.isPrefixOf (c :: rest) || listSub needle rest

/-- Python `key in v` for a string `key` (app.py line 57, `'error' in result`).
Dict: key membership. List: equality with an element (only `str` elements can
equal a `str`). Str: substring test. Other types are not iterable. -/
def pyContains (v : Json) (key : String) : Except PyExc Bool :=
  match v with
  | Json.obj fields => Except.ok (hasKey fields key)
  | Json.arr xs =>
      Except.ok (xs.any (fun x => match x with
        | Json.str s => s == key
        | _ => false))
  | Json.str s => Except.ok (listSub key.toList s.toList)
  | other =>
      Except.error (PyExc.typeError
        ("argument of type \x27" ++ pyTypeName other ++ "\x27 is not iterable"))

/-- app.py line 58: `result.get('error', {}).get('message', 'Unknown API Error')`.
`.get` exists only on dicts; a non-dict receiver raises `AttributeError`. -/
def errorMessageOf (body : Json) : Except PyExc String :=
  match body with
  | Json.obj fields =>
    match jlookup fields "error" with
    | some (Json.obj efields) =>
      match jlookup efields "message" with
      | some v => Except.ok (pyStr v)
      | none => Except.ok "Unknown API Error"
    | some other =>
        Except.error (PyExc.attributeError
          ("\x27" ++ pyTypeName other ++ "\x27 object has no attribute \x27get\x27"))
    | none => Except.ok "Unknown API Error"
  | other =>
      Except.error (PyExc.attributeError
        ("\x27" ++ pyTypeName other ++ "\x27 object has no attribute \x27get\x27"))

/-- Environment's response to one `requests.post` attempt.
`transportFailure msg` is any `requests.exceptions.RequestException`
(connection error, timeout, or non-2xx via `raise_for_status`) whose
`str()` is `msg`; `httpSuccess body` is a 2xx reply whose JSON body parsed
to `body`. -/
inductive AttemptOutcome where
  | transportFailure (msg : String) : AttemptOutcome
  | httpSuccess (body : Json) : AttemptOutcome

/-- How `call_gemini_api_with_backoff` ends: a returned value or a raised
exception (the Python function returns `None` when the loop never runs). -/
inductive CallResult where
  | ok (body : Json) : CallResult
  | raised (e : PyExc) : CallResult

/-- Observable outcome of one invocation of the backoff caller:
final result, requested sleep durations in order, and the number of
loop iterations (HTTP attempts) executed. -/
structure CallOutcome where
  result : CallResult
  sleeps : List Nat
  attempts : Nat

/-- app.py lines 50-69, the body of `for attempt in range(max_retries)`
starting at index `attempt` with `remaining` iterations left
(`remaining = maxRetries - attempt` at the top-level call).  On a 2xx
reply: if `'error' in result` raise a plain `Exception` (note: NOT a
`RequestException`, so the `except` clause below does not catch it),
else return the body.  On a `RequestException`: sleep `2^attempt` and
retry while `attempt < max_retries - 1`, else raise the exhaustion
`Exception`.  Falling out of the loop returns `None`. -/
def callFrom (oracle : Nat → AttemptOutcome) (maxRetries : Nat) :
    Nat → Nat → CallOutcome
  | _, 0 => ⟨CallResult.ok Json.null, [], 0⟩
  | attempt, r + 1 =>
    match oracle attempt with
    | AttemptOutcome.httpSuccess body =>
      match pyContains body "error" with
      | Except.error e => ⟨CallResult.raised e, [], 1⟩
      | Except.ok true =>
        match errorMessageOf body with
        | Except.error e => ⟨CallResult.raised e, [], 1⟩
        | Except.ok m =>
            ⟨CallResult.raised (PyExc.genericError ("Gemini API error: " ++ m)),
             [], 1⟩
      | Except.ok false => ⟨CallResult.ok body, [], 1⟩
    | AttemptOutcome.transportFailure m =>
      if attempt + 1 < maxRetries then
        let rest := callFrom oracle maxRetries (attempt + 1) r
        ⟨rest.result, 2 ^ attempt :: rest.sleeps, rest.attempts + 1⟩
      else
        ⟨CallResult.raised (PyExc.genericError
            (("Gemini API call failed after " ++ toString maxRetries ++
              " attempts: ") ++ m)),
         [], 1⟩

/-- app.py lines 48-69, `call_gemini_api_with_backoff(payload, max_retries)`.
The payload is sent on every attempt; the environment oracle determines each
attempt's outcome (the reply may not depend on anything else, since the same
payload is re-sent verbatim). -/
def callWithBackoff (_payload : Json) (oracle : Nat → AttemptOutcome)
    (maxRetries : Nat) : CallOutcome :=
  callFrom oracle maxRetries 0 maxRetries

/-- Base64 alphabet (RFC 4648, as used by `base64.b64encode`). -/
def b64Alphabet : List Char :=
  "ABCDEFGHIJKLMNOPQRSTUVWXYZabcdefghijklmnopqrstuvwxyz0123456789+/".toList

/-- Character for a 6-bit group. -/
def b64Char (n : Nat) : Char := b64Alphabet.getD n 'A'

/-- Standard base64 of a byte list, three bytes at a time with `=` padding. -/
def b64EncodeList : List Nat → List Char
  | [] => []
  | [b0] => [b64Char (b0 / 4), b64Char (b0 % 4 * 16), '=', '=']
  | [b0, b1] =>
      [b64Char (b0 / 4), b64Char (b0 % 4 * 16 + b1 / 16),
       b64Char (b1 % 16 * 4), '=']
  | b0 :: b1 :: b2 :: rest =>
      b64Char (b0 / 4) :: b64Char (b0 % 4 * 16 + b1 / 16) ::
      b64Char (b1 % 16 * 4 + b2 / 64) :: b64Char (b2 % 64) ::
      b64EncodeList rest

/-- `base64.b64encode(file_bytes).decode('utf-8')`.  Bytes are modelled as
naturals; the `% 256` mask records that Python byte values are 0-255. -/
def b64encode (bytes : List Nat) : String :=
  String.mk (b64EncodeList (bytes.map (· % 256)))

/-- app.py lines 37-46, `file_to_base64_part(file_stream, mime_type)`,
applied to the bytes the stream yields. -/
def file_to_base64_part (fileBytes : List Nat) (mime_type : String) : Json :=
  Json.obj [("inlineData", Json.obj
    [("mimeType", Json.str mime_type),
     ("data", Json.str (b64encode fileBytes))])]

/-- The five required report keys, app.py line 32. -/
def requiredKeys : List String :=
  ["match_percentage", "strengths", "improvement_suggestions",
   "matching_skills", "missing_skills"]

/-- app.py lines 23-33, the module-level `RESPONSE_SCHEMA` constant. -/
def RESPONSE_SCHEMA : Json :=
  Json.obj [
    ("type", Json.str "OBJECT"),
    ("properties", Json.obj [
      ("match_percentage", Json.obj [
        ("type", Json.str "STRING"),
        ("description", Json.str
          "The overall match score as a percentage string, e.g., \x2775%\x27.")]),
      ("strengths", Json.obj [
        ("type", Json.str "STRING"),
        ("description", Json.str
          "A detailed, short paragraph summarizing the key strengths of the resume relative to the JD.")]),
      ("improvement_suggestions", Json.obj [
        ("type", Json.str "STRING"),
        ("description", Json.str
          "A detailed, short paragraph providing specific suggestions for improving the resume\x27s match.")]),
      ("matching_skills", Json.obj [
        ("type", Json.str "ARRAY"),
        ("items", Json.obj [("type", Json.str "STRING")]),
        ("description", Json.str
          "A list of relevant technical and soft skills found in the resume that match the JD.")]),
      ("missing_skills", Json.obj [
        ("type", Json.str "ARRAY"),
        ("items", Json.obj [("type", Json.str "STRING")]),
        ("description", Json.str
          "A list of critical skills mentioned in the JD that are missing or weakly represented in the resume.")])]),
    ("required", Json.arr (requiredKeys.map Json.str))]

/-- app.py lines 100-105, the fixed system instruction string. -/
def system_instruction : String :=
  "You are an expert ATS (Applicant Tracking System) and Career Coach. " ++
  "Analyze the provided resume (PDF) against the job description (text). " ++
  "Provide an extremely accurate and strict assessment. " ++
  "Return the feedback strictly in the requested JSON format."

/-- app.py lines 107-110, the templated user prompt embedding the JD. -/
def user_prompt (jd : String) : String :=
  ("Analyze the resume against the following Job Description (JD) and " ++
   "provide a structured ATS report. JD: ") ++ jd

/-- app.py lines 98 and 113-130: the payload sent to the external service
for job description `jd` and resume bytes `resumeBytes` (the handler passes
the literal mime type "application/pdf" to `file_to_base64_part`). -/
def buildPayload (jd : String) (resumeBytes : List Nat) : Json :=
  Json.obj [
    ("contents", Json.arr [
      Json.obj [
        ("role", Json.str "user"),
        ("parts", Json.arr [
          Json.obj [("text", Json.str (user_prompt jd))],
          file_to_base64_part resumeBytes "application/pdf"])]]),
    ("generationConfig", Json.obj [
      ("responseMimeType", Json.str "application/json"),
      ("responseSchema", RESPONSE_SCHEMA)]),
    ("systemInstruction", Json.obj [
      ("parts", Json.arr [Json.obj [("text", Json.str system_instruction)]])])]

/-- Python subscript `v[key]` with a string key.  Dicts look the key up
(`KeyError` when absent); lists and strings reject string indices with
`TypeError`; other values are not subscriptable. -/
def subscriptStr (v : Json) (key : String) : Except PyExc Json :=
  match v with
  | Json.obj fields =>
    match jlookup fields key with
    | some x => Except.ok x
    | none => Except.error (PyExc.keyError key)
  | Json.arr _ =>
      Except.error (PyExc.typeError
        "list indices must be integers or slices, not str")
  | Json.str _ =>
      Except.error (PyExc.typeError "string indices must be integers")
  | other =>
      Except.error (PyExc.typeError
        ("\x27" ++ pyTypeName other ++ "\x27 object is not subscriptable"))

/-- Python subscript `v[i]` with a natural index.  Lists index
(`IndexError` out of range); dicts raise `KeyError` (our objects have
string keys only, so an integer key is never present); strings index into
their characters; other values are not subscriptable. -/
def subscriptNat (v : Json) (i : Nat) : Except PyExc Json :=
  match v with
  | Json.arr xs =>
    match xs.get? i with
    | some x => Except.ok x
    | none => Except.error (PyExc.indexError "list index out of range")
  | Json.obj _ => Except.error (PyExc.keyError (toString i))
  | Json.str s =>
    match s.toList.get? i with
    | some c => Except.ok (Json.str (String.mk [c]))
    | none => Except.error (PyExc.indexError "string index out of range")
  | other =>
      Except.error (PyExc.typeError
        ("\x27" ++ pyTypeName other ++ "\x27 object is not subscriptable"))

/-- app.py line 137: `api_result['candidates'][0]['content']['parts'][0]['text']`. -/
def extractJsonText (api_result : Json) : Except PyExc Json :=
  match subscriptStr api_result "candidates" with
  | Except.error e => Except.error e
  | Except.ok c =>
    match subscriptNat c 0 with
    | Except.error e => Except.error e
    | Except.ok c0 =>
      match subscriptStr c0 "content" with
      | Except.error e => Except.error e
      | Except.ok ct =>
        match subscriptStr ct "parts" with
        | Except.error e => Except.error e
        | Except.ok ps =>
          match subscriptNat ps 0 with
          | Except.error e => Except.error e
          | Except.ok p0 => subscriptStr p0 "text"

/-- app.py line 140, `all(key in report_data for key in ks)`:
short-circuiting conjunction of Python membership tests. -/
def allKeysIn (report : Json) : List String → Except PyExc Bool
  | [] => Except.ok true
  | k :: ks =>
    match pyContains report k with
    | Except.error e => Except.error e
    | Except.ok true => allKeysIn report ks
    | Except.ok false => Except.ok false

/-- app.py line 140 with `ks = RESPONSE_SCHEMA['required']`. -/
def allRequiredIn (report : Json) : Except PyExc Bool :=
  allKeysIn report requiredKeys

/-- An HTTP response of the handler: status code and JSON body. -/
structure HttpResponse where
  status : Nat
  body : Json

/-- A `jsonify({"error": msg})` body. -/
def errBody (msg : String) : Json := Json.obj [("error", Json.str msg)]

/-- app.py lines 136-146 plus the enclosing blanket handler (lines 148-150)
for exceptions escaping the inner `try`: extract the text from the service
result, decode it, and check the required keys.  `json.JSONDecodeError` and
`KeyError` are caught by the inner `except` (fixed message); `IndexError`
and `TypeError` reach the blanket handler, which reports `str(e)`.
`json.loads` on a non-string raises `TypeError`. -/
def handleInner (loads : String → Option Json) (api_result : Json) :
    HttpResponse :=
  match extractJsonText api_result with
  | Except.error (PyExc.keyError _) =>
      ⟨500, errBody "Failed to parse AI response."⟩
  | Except.error e => ⟨500, errBody (pyExcStr e)⟩
  | Except.ok (Json.str txt) =>
    match loads txt with
    | none => ⟨500, errBody "Failed to parse AI response."⟩
    | some report_data =>
      match allRequiredIn report_data with
      | Except.ok true => ⟨200, report_data⟩
      | Except.ok false =>
          ⟨500, errBody "AI response was missing required fields."⟩
      | Except.error (PyExc.keyError _) =>
          ⟨500, errBody "Failed to parse AI response."⟩
      | Except.error e => ⟨500, errBody (pyExcStr e)⟩
  | Except.ok v =>
      ⟨500, errBody
        ("the JSON object must be str, bytes or bytearray, not " ++
         pyTypeName v)⟩

/-- The uploaded `resume_pdf` file: Werkzeug `FileStorage` with its
filename (its truthiness: a `FileStorage` is falsy iff its filename is
empty), declared mimetype, and stream contents. -/
structure UploadedFile where
  filename : String
  mimetype : String
  bytes : List Nat

/-- An inbound multipart request to `/analyze`. -/
structure AnalysisRequest where
  job_description : Option String
  resume_pdf : Option UploadedFile

/-- app.py lines 84-150, the `/analyze` handler `analyze_resume`, as a
function of the request, the `json.loads` oracle and the network oracle.
`not jd` is true when `job_description` is absent or empty; `not
resume_file` is true when the file is absent or its filename is empty. -/
def analyze_resume (loads : String → Option Json)
    (oracle : Nat → AttemptOutcome) (req : AnalysisRequest) : HttpResponse :=
  match req.job_description, req.resume_pdf with
  | some jd, some f =>
    if jd = "" ∨ f.filename = "" then
      ⟨400, errBody "Missing job description or resume file."⟩
    else if f.mimetype ≠ "application/pdf" then
      ⟨400, errBody "Only PDF files are supported."⟩
    else
      match (callWithBackoff (buildPayload jd f.bytes) oracle 5).result with
      | CallResult.ok api_result => handleInner loads api_result
      | CallResult.raised e => ⟨500, errBody (pyExcStr e)⟩
  | _, _ => ⟨400, errBody "Missing job description or resume file."⟩

/-! ## Helper lemmas -/

/-- On an object, `all(key in d for key in ks)` never raises and reduces to
the boolean conjunction of `hasKey` tests. -/
theorem allKeysIn_obj (fields : List (String × Json)) (ks : List String) :
    allKeysIn (Json.obj fields) ks =
      Except.ok (ks.all (fun k => hasKey fields k)) := by
  induction ks with
  | nil => rfl
  | cons k ks ih =>
    cases h : hasKey fields k with
    | false => simp [allKeysIn, pyContains, h]
    | true => simp [allKeysIn, pyContains, h, ih]

/-! ## Claim theorems -/

/-- C1, counterexample: with every attempt answered by a 2xx body
`{"error": {"message": "quota exceeded"}}`, the backoff caller does NOT
make 5 attempts: the plain `Exception` raised for an error-bearing body is
not a `requests.exceptions.RequestException`, so the retry `except` clause
never catches it and the loop ends on the first attempt with no sleeps. -/
theorem backoff_api_error_not_retried_cex :
    (callWithBackoff Json.null
        (fun _ => AttemptOutcome.httpSuccess
          (Json.obj [("error", Json.obj [("message", Json.str "quota exceeded")])]))
        5) =
      ⟨CallResult.raised (PyExc.genericError "Gemini API error: quota exceeded"),
       [], 1⟩ ∧
    (callWithBackoff Json.null
        (fun _ => AttemptOutcome.httpSuccess
          (Json.obj [("error", Json.obj [("message", Json.str "quota exceeded")])]))
        5).attempts ≠ 5 := by
  constructor
  · rfl
  · decide

/-- C1, amended: when each attempt yields a 2xx response whose parsed JSON
body is `{"error": {"message": msg}}`, the backoff caller fails on the FIRST
attempt — one attempt, no sleeps, no retries — raising a plain `Exception`
whose message is `"Gemini API error: " ++ msg` (so it contains the API error
message), and the request handler's blanket `except` surfaces that message
as HTTP 500. -/
theorem backoff_api_error_fails_fast (oracle : Nat → AttemptOutcome)
    (emsg : String)
    (h : ∀ n, oracle n = AttemptOutcome.httpSuccess
      (Json.obj [("error", Json.obj [("message", Json.str emsg)])])) :
    callWithBackoff Json.null oracle 5 =
      ⟨CallResult.raised (PyExc.genericError ("Gemini API error: " ++ emsg)),
       [], 1⟩ ∧
    ∀ (loads : String → Option Json) (jd : String) (f : UploadedFile),
      jd ≠ "" → f.filename ≠ "" → f.mimetype = "application/pdf" →
      analyze_resume loads oracle ⟨some jd, some f⟩ =
        ⟨500, errBody ("Gemini API error: " ++ emsg)⟩ := by
  have hc : ∀ p : Json, callWithBackoff p oracle 5 =
      ⟨CallResult.raised (PyExc.genericError ("Gemini API error: " ++ emsg)),
       [], 1⟩ := by
    intro p
    have h0 := h 0
    simp [callWithBackoff, callFrom, h0, pyContains, hasKey, errorMessageOf,
      jlookup, pyStr]
  refine ⟨hc Json.null, ?_⟩
  intro loads jd f hjd hfn hmt
  simp [analyze_resume, hjd, hfn, hmt, hc, pyExcStr]

/-- C1 witness: the amended behaviour at the concrete Scenario-C input. -/
theorem backoff_api_error_fails_fast_witness :
    callWithBackoff Json.null
        (fun _ => AttemptOutcome.httpSuccess
          (Json.obj [("error", Json.obj [("message", Json.str "quota exceeded")])]))
        5 =
      ⟨CallResult.raised (PyExc.genericError "Gemini API error: quota exceeded"),
       [], 1⟩ ∧
    analyze_resume (fun _ => none)
        (fun _ => AttemptOutcome.httpSuccess
          (Json.obj [("error", Json.obj [("message", Json.str "quota exceeded")])]))
        ⟨some "jd", some ⟨"resume.pdf", "application/pdf", [1, 2, 3]⟩⟩ =
      ⟨500, errBody "Gemini API error: quota exceeded"⟩ := by
  have H := backoff_api_error_fails_fast
    (fun _ => AttemptOutcome.httpSuccess
      (Json.obj [("error", Json.obj [("message", Json.str "quota exceeded")])]))
    "quota exceeded" (fun _ => rfl)
  exact ⟨H.1, H.2 (fun _ => none) "jd" ⟨"resume.pdf", "application/pdf", [1, 2, 3]⟩
    (by decide) (by decide) rfl⟩

/-- C2: with `max_retries = 5`, any `N < 5` transport-level failures
(connection error, timeout, non-2xx) followed by a 2xx attempt whose body
has no `error` field give exactly the sleeps `2^0, ..., 2^(N-1)` and return
that body after `N+1` attempts; 5 consecutive transport failures give
exactly 5 attempts (with sleeps 1, 2, 4, 8 along the way) and raise the
exhaustion error carrying the last underlying message. -/
theorem backoff_transport_retry (payload : Json)
    (oracle : Nat → AttemptOutcome) (msg : Nat → String) :
    (∀ N body, N < 5 →
      (∀ n, n < N → oracle n = AttemptOutcome.transportFailure (msg n)) →
      oracle N = AttemptOutcome.httpSuccess body →
      pyContains body "error" = Except.ok false →
      callWithBackoff payload oracle 5 =
        ⟨CallResult.ok body, (List.range N).map (2 ^ ·), N + 1⟩) ∧
    ((∀ n, n < 5 → oracle n = AttemptOutcome.transportFailure (msg n)) →
      callWithBackoff payload oracle 5 =
        ⟨CallResult.raised (PyExc.genericError
            ("Gemini API call failed after 5 attempts: " ++ msg 4)),
         [1, 2, 4, 8], 5⟩) := by
  constructor
  · intro N body hN hfail hsucc hnoerr
    interval_cases N
    · simp [callWithBackoff, callFrom, hsucc, hnoerr]
    · have h0 := hfail 0 (by omega)
      simp [callWithBackoff, callFrom, h0, hsucc, hnoerr]
      decide
    · have h0 := hfail 0 (by omega)
      have h1 := hfail 1 (by omega)
      simp [callWithBackoff, callFrom, h0, h1, hsucc, hnoerr]
      decide
    · have h0 := hfail 0 (by omega)
      have h1 := hfail 1 (by omega)
      have h2 := hfail 2 (by omega)
      simp [callWithBackoff, callFrom, h0, h1, h2, hsucc, hnoerr]
      decide
    · have h0 := hfail 0 (by omega)
      have h1 := hfail 1 (by omega)
      have h2 := hfail 2 (by omega)
      have h3 := hfail 3 (by omega)
      simp [callWithBackoff, callFrom, h0, h1, h2, h3, hsucc, hnoerr]
      decide
  · intro hfail
    have h0 := hfail 0 (by omega)
    have h1 := hfail 1 (by omega)
    have h2 := hfail 2 (by omega)
    have h3 := hfail 3 (by omega)
    have h4 := hfail 4 (by omega)
    simp [callWithBackoff, callFrom, h0, h1, h2, h3, h4,
      show (("Gemini API call failed after " ++ toString (5 : Nat) ++
        " attempts: ") : String) = "Gemini API call failed after 5 attempts: "
        from rfl]

/-- C2 witness: two transport failures then a clean success, and five
straight transport failures, at concrete oracles. -/
theorem backoff_transport_retry_witness :
    callWithBackoff Json.null
        (fun n => if n < 2 then AttemptOutcome.transportFailure "boom"
          else AttemptOutcome.httpSuccess (Json.obj [])) 5 =
      ⟨CallResult.ok (Json.obj []), [1, 2], 3⟩ ∧
    callWithBackoff Json.null
        (fun n => AttemptOutcome.transportFailure ("e" ++ toString n)) 5 =
      ⟨CallResult.raised (PyExc.genericError
          "Gemini API call failed after 5 attempts: e4"),
       [1, 2, 4, 8], 5⟩ := by
  constructor
  · exact (backoff_transport_retry Json.null
      (fun n => if n < 2 then AttemptOutcome.transportFailure "boom"
        else AttemptOutcome.httpSuccess (Json.obj []))
      (fun _ => "boom")).1 2 (Json.obj []) (by omega)
      (fun n hn => by simp [hn]) (by simp) rfl
  · exact (backoff_transport_retry Json.null
      (fun n => AttemptOutcome.transportFailure ("e" ++ toString n))
      (fun n => "e" ++ toString n)).2 (fun n _ => rfl)

/-- C3: for a valid request (non-empty job description, non-empty filename,
declared PDF media type) whose downstream call succeeds with a body whose
extracted text decodes to a JSON object carrying all five required keys,
the handler answers HTTP 200 with exactly that object — the same field
list, nothing added, removed or altered. -/
theorem analyze_success_passthrough (loads : String → Option Json)
    (oracle : Nat → AttemptOutcome) (jd : String) (f : UploadedFile)
    (body : Json) (txt : String) (fields : List (String × Json))
    (hjd : jd ≠ "") (hfn : f.filename ≠ "")
    (hmt : f.mimetype = "application/pdf")
    (hcall : (callWithBackoff (buildPayload jd f.bytes) oracle 5).result =
      CallResult.ok body)
    (hex : extractJsonText body = Except.ok (Json.str txt))
    (hloads : loads txt = some (Json.obj fields))
    (hkeys : ∀ k ∈ requiredKeys, hasKey fields k = true) :
    analyze_resume loads oracle ⟨some jd, some f⟩ = ⟨200, Json.obj fields⟩ := by
  have hall : allRequiredIn (Json.obj fields) = Except.ok true := by
    have hb : requiredKeys.all (fun k => hasKey fields k) = true := by
      simp only [List.all_eq_true]
      exact fun k hk => hkeys k hk
    rw [allRequiredIn, allKeysIn_obj, hb]
  simp [analyze_resume, hjd, hfn, hmt, hcall, handleInner, hex, hloads, hall]

/-- C3 witness: a concrete schema-conformant round trip. -/
theorem analyze_success_passthrough_witness :
    analyze_resume
        (fun s => if s = "T" then
          some (Json.obj (requiredKeys.map (fun k => (k, Json.str "x"))))
          else none)
        (fun _ => AttemptOutcome.httpSuccess
          (Json.obj [("candidates", Json.arr [Json.obj [("content", Json.obj
            [("parts", Json.arr [Json.obj [("text", Json.str "T")]])])]])]))
        ⟨some "jd", some ⟨"resume.pdf", "application/pdf", [1, 2, 3]⟩⟩ =
      ⟨200, Json.obj (requiredKeys.map (fun k => (k, Json.str "x")))⟩ := by
  exact analyze_success_passthrough
    (fun s => if s = "T" then
      some (Json.obj (requiredKeys.map (fun k => (k, Json.str "x")))) else none)
    (fun _ => AttemptOutcome.httpSuccess
      (Json.obj [("candidates", Json.arr [Json.obj [("content", Json.obj
        [("parts", Json.arr [Json.obj [("text", Json.str "T")]])])]])]))
    "jd" ⟨"resume.pdf", "application/pdf", [1, 2, 3]⟩
    (Json.obj [("candidates", Json.arr [Json.obj [("content", Json.obj
      [("parts", Json.arr [Json.obj [("text", Json.str "T")]])])]])])
    "T" (requiredKeys.map (fun k => (k, Json.str "x")))
    (by decide) (by decide) rfl rfl rfl rfl (by decide)

/-- C4: for a valid request whose downstream call succeeds and whose
extracted text is a string, an undecodable text yields HTTP 500 with the
fixed body `{"error": "Failed to parse AI response."}`, and a decoded JSON
object missing at least one required key yields HTTP 500 with the fixed
body `{"error": "AI response was missing required fields."}`. -/
theorem analyze_malformed_fixed_messages (loads : String → Option Json)
    (oracle : Nat → AttemptOutcome) (jd : String) (f : UploadedFile)
    (body : Json) (txt : String)
    (hjd : jd ≠ "") (hfn : f.filename ≠ "")
    (hmt : f.mimetype = "application/pdf")
    (hcall : (callWithBackoff (buildPayload jd f.bytes) oracle 5).result =
      CallResult.ok body)
    (hex : extractJsonText body = Except.ok (Json.str txt)) :
    (loads txt = none →
      analyze_resume loads oracle ⟨some jd, some f⟩ =
        ⟨500, errBody "Failed to parse AI response."⟩) ∧
    (∀ fields, loads txt = some (Json.obj fields) →
      (∃ k, k ∈ requiredKeys ∧ hasKey fields k = false) →
      analyze_resume loads oracle ⟨some jd, some f⟩ =
        ⟨500, errBody "AI response was missing required fields."⟩) := by
  constructor
  · intro hloads
    simp [analyze_resume, hjd, hfn, hmt, hcall, handleInner, hex, hloads]
  · intro fields hloads hmiss
    have hall : allRequiredIn (Json.obj fields) = Except.ok false := by
      rw [allRequiredIn, allKeysIn_obj]
      obtain ⟨k, hk, hfalse⟩ := hmiss
      have : ¬ (requiredKeys.all (fun k => hasKey fields k) = true) := by
        simp only [List.all_eq_true]
        intro hallk
        exact absurd (hallk k hk) (by simp [hfalse])
      simp only [Bool.not_eq_true] at this
      rw [this]
    simp [analyze_resume, hjd, hfn, hmt, hcall, handleInner, hex, hloads, hall]

/-- C4 witness: Scenario D (invalid JSON text) and Scenario E (valid JSON
missing keys) at concrete inputs. -/
theorem analyze_malformed_fixed_messages_witness :
    analyze_resume (fun _ => none)
        (fun _ => AttemptOutcome.httpSuccess
          (Json.obj [("candidates", Json.arr [Json.obj [("content", Json.obj
            [("parts", Json.arr [Json.obj [("text", Json.str "T")]])])]])]))
        ⟨some "jd", some ⟨"resume.pdf", "application/pdf", [1, 2, 3]⟩⟩ =
      ⟨500, errBody "Failed to parse AI response."⟩ ∧
    analyze_resume
        (fun s => if s = "T" then
          some (Json.obj [("match_percentage", Json.str "75%")]) else none)
        (fun _ => AttemptOutcome.httpSuccess
          (Json.obj [("candidates", Json.arr [Json.obj [("content", Json.obj
            [("parts", Json.arr [Json.obj [("text", Json.str "T")]])])]])]))
        ⟨some "jd", some ⟨"resume.pdf", "application/pdf", [1, 2, 3]⟩⟩ =
      ⟨500, errBody "AI response was missing required fields."⟩ := by
  constructor
  · exact (analyze_malformed_fixed_messages (fun _ => none)
      (fun _ => AttemptOutcome.httpSuccess
        (Json.obj [("candidates", Json.arr [Json.obj [("content", Json.obj
          [("parts", Json.arr [Json.obj [("text", Json.str "T")]])])]])]))
      "jd" ⟨"resume.pdf", "application/pdf", [1, 2, 3]⟩
      (Json.obj [("candidates", Json.arr [Json.obj [("content", Json.obj
        [("parts", Json.arr [Json.obj [("text", Json.str "T")]])])]])])
      "T" (by decide) (by decide) rfl rfl rfl).1 rfl
  · exact (analyze_malformed_fixed_messages
      (fun s => if s = "T" then
        some (Json.obj [("match_percentage", Json.str "75%")]) else none)
      (fun _ => AttemptOutcome.httpSuccess
        (Json.obj [("candidates", Json.arr [Json.obj [("content", Json.obj
          [("parts", Json.arr [Json.obj [("text", Json.str "T")]])])]])]))
      "jd" ⟨"resume.pdf", "application/pdf", [1, 2, 3]⟩
      (Json.obj [("candidates", Json.arr [Json.obj [("content", Json.obj
        [("parts", Json.arr [Json.obj [("text", Json.str "T")]])])]])])
      "T" (by decide) (by decide) rfl rfl rfl).2
      [("match_percentage", Json.str "75%")] rfl
      ⟨"strengths", by decide, by decide⟩

/-- C5: a request whose `job_description` is absent or empty, or whose
`resume_pdf` is absent, is answered HTTP 400 with the fixed "Missing..."
body, whatever the decoder and network oracles do — the conclusion does not
depend on `loads` or `oracle`, so neither the payload builder nor the
backoff caller is consulted. -/
theorem analyze_missing_input_400 (req : AnalysisRequest)
    (h : req.job_description = none ∨ req.job_description = some "" ∨
      req.resume_pdf = none) :
    ∀ (loads : String → Option Json) (oracle : Nat → AttemptOutcome),
      analyze_resume loads oracle req =
        ⟨400, errBody "Missing job description or resume file."⟩ := by
  intro loads oracle
  rcases req with ⟨jdo, rfo⟩
  rcases jdo with _ | jd <;> rcases rfo with _ | f <;>
    simp_all [analyze_resume]

/-- C5 witness: the fully absent request. -/
theorem analyze_missing_input_400_witness :
    analyze_resume (fun _ => none)
        (fun _ => AttemptOutcome.transportFailure "down") ⟨none, none⟩ =
      ⟨400, errBody "Missing job description or resume file."⟩ :=
  analyze_missing_input_400 ⟨none, none⟩ (Or.inl rfl)
    (fun _ => none) (fun _ => AttemptOutcome.transportFailure "down")

/-- C6: a request with both fields present and non-empty whose file declares
a media type other than `application/pdf` is answered HTTP 400 with the
fixed "Only PDF..." body, independently of the decoder and network
oracles (so no payload is built and no call is made). -/
theorem analyze_wrong_mimetype_400 (jd : String) (f : UploadedFile)
    (hjd : jd ≠ "") (hfn : f.filename ≠ "")
    (hmt : f.mimetype ≠ "application/pdf") :
    ∀ (loads : String → Option Json) (oracle : Nat → AttemptOutcome),
      analyze_resume loads oracle ⟨some jd, some f⟩ =
        ⟨400, errBody "Only PDF files are supported."⟩ := by
  intro loads oracle
  simp [analyze_resume, hjd, hfn, hmt]

/-- C6 witness: Scenario B, a PNG upload. -/
theorem analyze_wrong_mimetype_400_witness :
    analyze_resume (fun _ => none)
        (fun _ => AttemptOutcome.transportFailure "down")
        ⟨some "jd", some ⟨"resume.png", "image/png", [1, 2, 3]⟩⟩ =
      ⟨400, errBody "Only PDF files are supported."⟩ :=
  analyze_wrong_mimetype_400 "jd" ⟨"resume.png", "image/png", [1, 2, 3]⟩
    (by decide) (by decide) (by decide)
    (fun _ => none) (fun _ => AttemptOutcome.transportFailure "down")

/-- C7: for every job description and resume byte sequence, the built
payload's user-prompt text part embeds the job description verbatim (it is
a contiguous trailing substring of the prompt), its `contents` part list
carries the base64 encoding of the resume bytes with the PDF mime type as
an inline data part, and its generation configuration declares the JSON
response mime type together with the static five-key `RESPONSE_SCHEMA`. -/
theorem payload_contents_structure (jd : String) (resumeBytes : List Nat) :
    (∃ pre, user_prompt jd = pre ++ jd) ∧
    jget (buildPayload jd resumeBytes) "contents" =
      some (Json.arr [Json.obj [
        ("role", Json.str "user"),
        ("parts", Json.arr [
          Json.obj [("text", Json.str (user_prompt jd))],
          Json.obj [("inlineData", Json.obj [
            ("mimeType", Json.str "application/pdf"),
            ("data", Json.str (b64encode resumeBytes))])]])]]) ∧
    jget (buildPayload jd resumeBytes) "generationConfig" =
      some (Json.obj [
        ("responseMimeType", Json.str "application/json"),
        ("responseSchema", RESPONSE_SCHEMA)]) ∧
    jget RESPONSE_SCHEMA "required" =
      some (Json.arr [Json.str "match_percentage", Json.str "strengths",
        Json.str "improvement_suggestions", Json.str "matching_skills",
        Json.str "missing_skills"]) := by
  refine ⟨⟨"Analyze the resume against the following Job Description (JD) and provide a structured ATS report. JD: ", rfl⟩, rfl, rfl, rfl⟩

/-- C8: the payload builder is deterministic — equal job descriptions,
resume bytes and mime types give structurally identical payloads and inline
parts.  (In the embedding both builders are total pure functions: no I/O is
modelled and no failure case exists in their types.) -/
theorem payload_builder_deterministic (jd1 jd2 : String)
    (b1 b2 : List Nat) (m1 m2 : String)
    (hjd : jd1 = jd2) (hb : b1 = b2) (hm : m1 = m2) :
    buildPayload jd1 b1 = buildPayload jd2 b2 ∧
    file_to_base64_part b1 m1 = file_to_base64_part b2 m2 := by
  subst hjd; subst hb; subst hm
  exact ⟨rfl, rfl⟩

/-- C8 witness: determinism at a concrete input. -/
theorem payload_builder_deterministic_witness :
    buildPayload "Looking for a Python backend engineer" [37, 80, 68, 70] =
      buildPayload "Looking for a Python backend engineer" [37, 80, 68, 70] ∧
    file_to_base64_part [37, 80, 68, 70] "application/pdf" =
      file_to_base64_part [37, 80, 68, 70] "application/pdf" :=
  payload_builder_deterministic
    "Looking for a Python backend engineer" "Looking for a Python backend engineer"
    [37, 80, 68, 70] [37, 80, 68, 70]
    "application/pdf" "application/pdf" rfl rfl rfl

/-- Every outcome of the extraction/validation stage is either HTTP 200
with a body passing the five-key membership check, or HTTP 500 with a
single-key error body. -/
theorem handleInner_shape (loads : String → Option Json) (api_result : Json) :
    ((handleInner loads api_result).status = 200 ∧
      allRequiredIn (handleInner loads api_result).body = Except.ok true) ∨
    (((handleInner loads api_result).status = 400 ∨
      (handleInner loads api_result).status = 500) ∧
      ∃ m, (handleInner loads api_result).body = errBody m) := by
  rcases hE : extractJsonText api_result with e | v
  · have hH : ∃ s, handleInner loads api_result = ⟨500, errBody s⟩ := by
      rcases e with k | m | m | m | _ | m
      · exact ⟨"Failed to parse AI response.", by simp [handleInner, hE]⟩
      · exact ⟨m, by simp [handleInner, hE, pyExcStr]⟩
      · exact ⟨m, by simp [handleInner, hE, pyExcStr]⟩
      · exact ⟨m, by simp [handleInner, hE, pyExcStr]⟩
      · exact ⟨"Expecting value", by simp [handleInner, hE, pyExcStr]⟩
      · exact ⟨m, by simp [handleInner, hE, pyExcStr]⟩
    obtain ⟨s, hH⟩ := hH
    rw [hH]
    exact Or.inr ⟨Or.inr rfl, s, rfl⟩
  · rcases v with _ | b | n | txt | xs | fs
    case str =>
      rcases hL : loads txt with _ | rd
      · have hH : handleInner loads api_result =
            ⟨500, errBody "Failed to parse AI response."⟩ := by
          simp [handleInner, hE, hL]
        rw [hH]
        exact Or.inr ⟨Or.inr rfl, _, rfl⟩
      · rcases hA : allRequiredIn rd with e' | b
        · have hH : ∃ s, handleInner loads api_result = ⟨500, errBody s⟩ := by
            rcases e' with k | m | m | m | _ | m
            · exact ⟨"Failed to parse AI response.",
                by simp [handleInner, hE, hL, hA]⟩
            · exact ⟨m, by simp [handleInner, hE, hL, hA, pyExcStr]⟩
            · exact ⟨m, by simp [handleInner, hE, hL, hA, pyExcStr]⟩
            · exact ⟨m, by simp [handleInner, hE, hL, hA, pyExcStr]⟩
            · exact ⟨"Expecting value", by simp [handleInner, hE, hL, hA, pyExcStr]⟩
            · exact ⟨m, by simp [handleInner, hE, hL, hA, pyExcStr]⟩
          obtain ⟨s, hH⟩ := hH
          rw [hH]
          exact Or.inr ⟨Or.inr rfl, s, rfl⟩
        · cases b
          · have hH : handleInner loads api_result =
                ⟨500, errBody "AI response was missing required fields."⟩ := by
              simp [handleInner, hE, hL, hA]
            rw [hH]
            exact Or.inr ⟨Or.inr rfl, _, rfl⟩
          · have hH : handleInner loads api_result = ⟨200, rd⟩ := by
              simp [handleInner, hE, hL, hA]
            rw [hH]
            exact Or.inl ⟨rfl, hA⟩
    case null =>
      rw [show handleInner loads api_result = ⟨500, errBody
          ("the JSON object must be str, bytes or bytearray, not " ++
            pyTypeName Json.null)⟩ from by simp [handleInner, hE]]
      exact Or.inr ⟨Or.inr rfl, _, rfl⟩
    case bool =>
      rw [show handleInner loads api_result = ⟨500, errBody
          ("the JSON object must be str, bytes or bytearray, not " ++
            pyTypeName (Json.bool b))⟩ from by simp [handleInner, hE]]
      exact Or.inr ⟨Or.inr rfl, _, rfl⟩
    case num =>
      rw [show handleInner loads api_result = ⟨500, errBody
          ("the JSON object must be str, bytes or bytearray, not " ++
            pyTypeName (Json.num n))⟩ from by simp [handleInner, hE]]
      exact Or.inr ⟨Or.inr rfl, _, rfl⟩
    case arr =>
      rw [show handleInner loads api_result = ⟨500, errBody
          ("the JSON object must be str, bytes or bytearray, not " ++
            pyTypeName (Json.arr xs))⟩ from by simp [handleInner, hE]]
      exact Or.inr ⟨Or.inr rfl, _, rfl⟩
    case obj =>
      rw [show handleInner loads api_result = ⟨500, errBody
          ("the JSON object must be str, bytes or bytearray, not " ++
            pyTypeName (Json.obj fs))⟩ from by simp [handleInner, hE]]
      exact Or.inr ⟨Or.inr rfl, _, rfl⟩

/-- C9, counterexample: a downstream reply whose embedded text decodes to a
LIST of the five required key names passes the Python membership check
(`key in list` is element equality), so the handler answers HTTP 200 with a
body that is not a JSON object at all — not an AnalysisReport — refuting
the claim that every response is either a 200 with the full report or a
non-200 single-`error`-key body. -/
theorem analyze_nonobject_200_cex :
    ¬ ((((analyze_resume
      (fun s => if s = "T" then
        some (Json.arr [Json.str "match_percentage", Json.str "strengths",
          Json.str "improvement_suggestions", Json.str "matching_skills",
          Json.str "missing_skills"]) else none)
      (fun _ => AttemptOutcome.httpSuccess
        (Json.obj [("candidates", Json.arr [Json.obj [("content", Json.obj
          [("parts", Json.arr [Json.obj [("text", Json.str "T")]])])]])]))
      ⟨some "jd", some ⟨"resume.pdf", "application/pdf", [1, 2, 3]⟩⟩).status = 200 ∧
      (∃ fields, (analyze_resume
      (fun s => if s = "T" then
        some (Json.arr [Json.str "match_percentage", Json.str "strengths",
          Json.str "improvement_suggestions", Json.str "matching_skills",
          Json.str "missing_skills"]) else none)
      (fun _ => AttemptOutcome.httpSuccess
        (Json.obj [("candidates", Json.arr [Json.obj [("content", Json.obj
          [("parts", Json.arr [Json.obj [("text", Json.str "T")]])])]])]))
      ⟨some "jd", some ⟨"resume.pdf", "application/pdf", [1, 2, 3]⟩⟩).body = Json.obj fields ∧
        ∀ k ∈ requiredKeys, hasKey fields k = true)) ∨
      (((analyze_resume
      (fun s => if s = "T" then
        some (Json.arr [Json.str "match_percentage", Json.str "strengths",
          Json.str "improvement_suggestions", Json.str "matching_skills",
          Json.str "missing_skills"]) else none)
      (fun _ => AttemptOutcome.httpSuccess
        (Json.obj [("candidates", Json.arr [Json.obj [("content", Json.obj
          [("parts", Json.arr [Json.obj [("text", Json.str "T")]])])]])]))
      ⟨some "jd", some ⟨"resume.pdf", "application/pdf", [1, 2, 3]⟩⟩).status = 400 ∨
        (analyze_resume
      (fun s => if s = "T" then
        some (Json.arr [Json.str "match_percentage", Json.str "strengths",
          Json.str "improvement_suggestions", Json.str "matching_skills",
          Json.str "missing_skills"]) else none)
      (fun _ => AttemptOutcome.httpSuccess
        (Json.obj [("candidates", Json.arr [Json.obj [("content", Json.obj
          [("parts", Json.arr [Json.obj [("text", Json.str "T")]])])]])]))
      ⟨some "jd", some ⟨"resume.pdf", "application/pdf", [1, 2, 3]⟩⟩).status = 500) ∧
        (∃ m, (analyze_resume
      (fun s => if s = "T" then
        some (Json.arr [Json.str "match_percentage", Json.str "strengths",
          Json.str "improvement_suggestions", Json.str "matching_skills",
          Json.str "missing_skills"]) else none)
      (fun _ => AttemptOutcome.httpSuccess
        (Json.obj [("candidates", Json.arr [Json.obj [("content", Json.obj
          [("parts", Json.arr [Json.obj [("text", Json.str "T")]])])]])]))
      ⟨some "jd", some ⟨"resume.pdf", "application/pdf", [1, 2, 3]⟩⟩).body = errBody m)))) := by
  have hr : (analyze_resume
      (fun s => if s = "T" then
        some (Json.arr [Json.str "match_percentage", Json.str "strengths",
          Json.str "improvement_suggestions", Json.str "matching_skills",
          Json.str "missing_skills"]) else none)
      (fun _ => AttemptOutcome.httpSuccess
        (Json.obj [("candidates", Json.arr [Json.obj [("content", Json.obj
          [("parts", Json.arr [Json.obj [("text", Json.str "T")]])])]])]))
      ⟨some "jd", some ⟨"resume.pdf", "application/pdf", [1, 2, 3]⟩⟩) =
      ⟨200, Json.arr [Json.str "match_percentage", Json.str "strengths",
        Json.str "improvement_suggestions", Json.str "matching_skills",
        Json.str "missing_skills"]⟩ := rfl
  rw [hr]
  rintro (⟨_, fields, hobj, _⟩ | ⟨hst, _⟩)
  · exact Json.noConfusion hobj
  · rcases hst with hst | hst <;> exact absurd hst (by decide)

/-- C9, amended: for every request and every environment behaviour, the
handler answers either HTTP 200 with a body that passes the code's
five-required-key membership check (the full AnalysisReport whenever that
body is a JSON object; a list or string containing the key names also
passes Python's `in`), or a non-200 status (400 or 500) whose body is a
single-`error`-key JSON object — no error path ever returns partial report
data. -/
theorem analyze_response_shape (req : AnalysisRequest)
    (loads : String → Option Json) (oracle : Nat → AttemptOutcome) :
    ((analyze_resume loads oracle req).status = 200 ∧
      allRequiredIn (analyze_resume loads oracle req).body = Except.ok true) ∨
    (((analyze_resume loads oracle req).status = 400 ∨
      (analyze_resume loads oracle req).status = 500) ∧
      ∃ m, (analyze_resume loads oracle req).body = errBody m) := by
  rcases req with ⟨jdo, rfo⟩
  rcases jdo with _ | jd
  · rcases rfo with _ | f <;> exact Or.inr ⟨Or.inl rfl, _, rfl⟩
  rcases rfo with _ | f
  · exact Or.inr ⟨Or.inl rfl, _, rfl⟩
  by_cases h1 : jd = "" ∨ f.filename = ""
  · rw [show analyze_resume loads oracle ⟨some jd, some f⟩ =
        ⟨400, errBody "Missing job description or resume file."⟩
        from by simp [analyze_resume, h1]]
    exact Or.inr ⟨Or.inl rfl, _, rfl⟩
  by_cases h2 : f.mimetype = "application/pdf"
  · rcases hR : (callWithBackoff (buildPayload jd f.bytes) oracle 5).result
      with body | e
    · rw [show analyze_resume loads oracle ⟨some jd, some f⟩ =
          handleInner loads body from by simp [analyze_resume, h1, h2, hR]]
      exact handleInner_shape loads body
    · rw [show analyze_resume loads oracle ⟨some jd, some f⟩ =
          ⟨500, errBody (pyExcStr e)⟩ from by simp [analyze_resume, h1, h2, hR]]
      exact Or.inr ⟨Or.inr rfl, _, rfl⟩
  · rw [show analyze_resume loads oracle ⟨some jd, some f⟩ =
        ⟨400, errBody "Only PDF files are supported."⟩
        from by simp [analyze_resume, h1, h2]]
    exact Or.inr ⟨Or.inl rfl, _, rfl⟩

/-- C10: for a valid request whose downstream call succeeds with a body in
which `candidates` (or the nested `parts`) is present but an EMPTY list,
the `[0]` subscript raises `IndexError`, which the inner `except`
(`json.JSONDecodeError`, `KeyError`) does not catch; the blanket top-level
handler answers HTTP 500 with the raw exception string
"list index out of range" — not the fixed parse-failure message. -/
theorem empty_candidates_indexerror (loads : String → Option Json)
    (oracle : Nat → AttemptOutcome) (jd : String) (f : UploadedFile)
    (hjd : jd ≠ "") (hfn : f.filename ≠ "")
    (hmt : f.mimetype = "application/pdf") :
    ((callWithBackoff (buildPayload jd f.bytes) oracle 5).result =
        CallResult.ok (Json.obj [("candidates", Json.arr [])]) →
      analyze_resume loads oracle ⟨some jd, some f⟩ =
        ⟨500, errBody "list index out of range"⟩) ∧
    ((callWithBackoff (buildPayload jd f.bytes) oracle 5).result =
        CallResult.ok (Json.obj [("candidates", Json.arr [Json.obj
          [("content", Json.obj [("parts", Json.arr [])])]])]) →
      analyze_resume loads oracle ⟨some jd, some f⟩ =
        ⟨500, errBody "list index out of range"⟩) ∧
    errBody "list index out of range" ≠ errBody "Failed to parse AI response." := by
  refine ⟨?_, ?_, by simp [errBody]⟩
  · intro hR
    simp [analyze_resume, hjd, hfn, hmt, hR, handleInner, extractJsonText,
      subscriptStr, subscriptNat, jlookup, pyExcStr]
  · intro hR
    simp [analyze_resume, hjd, hfn, hmt, hR, handleInner, extractJsonText,
      subscriptStr, subscriptNat, jlookup, pyExcStr]

/-- C10 witness: the empty-candidates and empty-parts bodies at a concrete
valid request. -/
theorem empty_candidates_indexerror_witness :
    analyze_resume (fun _ => none)
        (fun _ => AttemptOutcome.httpSuccess
          (Json.obj [("candidates", Json.arr [])]))
        ⟨some "jd", some ⟨"resume.pdf", "application/pdf", [1, 2, 3]⟩⟩ =
      ⟨500, errBody "list index out of range"⟩ ∧
    analyze_resume (fun _ => none)
        (fun _ => AttemptOutcome.httpSuccess
          (Json.obj [("candidates", Json.arr [Json.obj
            [("content", Json.obj [("parts", Json.arr [])])]])]))
        ⟨some "jd", some ⟨"resume.pdf", "application/pdf", [1, 2, 3]⟩⟩ =
      ⟨500, errBody "list index out of range"⟩ := by
  constructor
  · exact (empty_candidates_indexerror (fun _ => none)
      (fun _ => AttemptOutcome.httpSuccess
        (Json.obj [("candidates", Json.arr [])]))
      "jd" ⟨"resume.pdf", "application/pdf", [1, 2, 3]⟩
      (by decide) (by decide) rfl).1 rfl
  · exact (empty_candidates_indexerror (fun _ => none)
      (fun _ => AttemptOutcome.httpSuccess
        (Json.obj [("candidates", Json.arr [Json.obj
          [("content", Json.obj [("parts", Json.arr [])])]])]))
      "jd" ⟨"resume.pdf", "application/pdf", [1, 2, 3]⟩
      (by decide) (by decide) rfl).2.1 rfl
